import Mathlib

/-!
Shallow embedding of the core of the `diem_danh` attendance system:
the attendance session manager (`app/services/attendance_service.py`,
`app/models/attendance_log.py`, `app/models/attendance.py`), the face
matcher (`ml_models/face_detector.py`, service wrapper in
`app/services/face_recognition_service.py`) and the gallery builder
(`ml_models/face_trainer.py`).

Conventions: machine floats for confidences and distances are embedded
as `Rat`; `datetime` values as `Nat` ticks supplied explicitly as a
`now` argument at each call that reads the clock; SQLAlchemy rows as
records inside a `DB` structure holding the tables as lists in
insertion order (`.first()` becomes `List.find?`, in-place row mutation
becomes `updateFirst`); raised exceptions become `Except.error`.
External collaborators (the `face_recognition` library's detection and
distance routines) are passed in as function parameters.
-/

namespace DiemDanh

/-! ### Generic list helpers -/

/-- Replace the first element satisfying `p` (SQLAlchemy: mutate the row
returned by `.first()`). -/
def updateFirst (p : α → Bool) (f : α → α) : List α → List α
  | [] => []
  | a :: as => if p a then f a :: as else a :: updateFirst p f as

def exceptIsOk : Except ε α → Bool
  | .ok _ => true
  | .error _ => false

instance [DecidableEq ε] [DecidableEq α] : DecidableEq (Except ε α) := fun a b =>
  match a, b with
  | .ok x, .ok y => if h : x = y then .isTrue (by rw [h]) else .isFalse (by simpa using h)
  | .error e, .error e' =>
    if h : e = e' then .isTrue (by rw [h]) else .isFalse (by simpa using h)
  | .ok _, .error _ => .isFalse (by simp)
  | .error _, .ok _ => .isFalse (by simp)

/-! ### Data model (`app/models`) -/

abbrev Time := Nat

/-- `app/models/student.py` (the fields the core reads). -/
structure Student where
  id : Nat
  full_name : String
  classroom_id : Option Nat
  is_active : Bool
deriving DecidableEq

/-- `app/models/attendance.py::Attendance`. The `classroom_id` column
is `nullable=False` in the source; `Option Nat` models the unflushed
Python object, which can carry `None` until the store enforces the
constraint at flush time (see `mark_absent_unrecorded`). -/
structure Attendance where
  student_id : Nat
  classroom_id : Option Nat
  attendance_log_id : Nat
  status : String
  check_in_time : Option Time
  check_in_image_url : Option String
  face_confidence : Rat
  is_face_recognized : Bool
  recorded_by_id : Option Nat
  notes : Option String
  updated_at : Time
deriving DecidableEq

/-- `app/models/attendance_log.py::AttendanceLog`. -/
structure AttendanceLog where
  id : Nat
  classroom_id : Nat
  session_date : Nat
  session_type : String
  start_time : Time
  end_time : Option Time
  total_students : Nat
  present_count : Nat
  absent_count : Nat
  late_count : Nat
  excused_count : Nat
  is_finalized : Bool
  recorded_by_id : Option Nat
deriving DecidableEq

/-- The relational store: each table as a list in insertion order.
`next_log_id` models the autoincrement primary key of `attendance_logs`. -/
structure DB where
  classrooms : List Nat
  students : List Student
  logs : List AttendanceLog
  attendances : List Attendance
  next_log_id : Nat
deriving DecidableEq

/-! ### Constants and validators (`app/utils`) -/

/- The raise sites index `ERROR_MESSAGES` by key; the embedding keeps
the keys themselves as the error payloads. -/
def CLASSROOM_NOT_FOUND : String := "CLASSROOM_NOT_FOUND"
def STUDENT_NOT_FOUND : String := "STUDENT_NOT_FOUND"
def ATTENDANCE_LOG_NOT_FOUND : String := "ATTENDANCE_LOG_NOT_FOUND"
def INVALID_ATTENDANCE_STATUS : String := "INVALID_ATTENDANCE_STATUS"

/-- The database error raised at flush time when a pending
`attendances` row violates the `NOT NULL` constraint on
`classroom_id` (`nullable=False` in `app/models/attendance.py`). -/
def INTEGRITY_ERROR : String :=
  "IntegrityError: NOT NULL constraint failed: attendances.classroom_id"

def AUTO_MARK_ABSENT_HOURS : Nat := 8

/-- `MIN_FACE_CONFIDENCE = 0.80` in `app/utils/constants.py`. -/
def MIN_FACE_CONFIDENCE : Rat := mkRat 4 5

/-- The fixed note written by `mark_absent_unrecorded`. -/
def autoAbsentNote : String := "Auto-marked absent after deadline"

def ATTENDANCE_STATUSES : List String := ["present", "absent", "late", "excused"]

def is_valid_attendance_status (s : String) : Bool := ATTENDANCE_STATUSES.contains s

def is_valid_session_type (t : String) : Bool := ["morning", "afternoon"].contains t

/-- `validators.is_valid_confidence_score` (the 0.0–1.0 variant that is
in scope in `attendance_service.py`). -/
def is_valid_confidence_score (c : Rat) : Bool := decide (0 ≤ c) && decide (c ≤ 1)

/-! ### Attendance queries -/

def activeStudentsOf (db : DB) (cid : Nat) : List Student :=
  db.students.filter fun s => s.classroom_id == some cid && s.is_active

def countActiveStudents (db : DB) (cid : Nat) : Nat :=
  (activeStudentsOf db cid).length

def findLog (db : DB) (cid session_date : Nat) (stype : String) : Option AttendanceLog :=
  db.logs.find? fun l =>
    l.classroom_id == cid && l.session_date == session_date && l.session_type == stype

/-- The `(student_id, attendance_log_id)` filter used by the duplicate
checks and the unique constraint on `attendances`. -/
def attKey (sid lid : Nat) (a : Attendance) : Bool :=
  a.student_id == sid && a.attendance_log_id == lid

def findAttendance (db : DB) (sid lid : Nat) : Option Attendance :=
  db.attendances.find? (attKey sid lid)

def recordsFor (db : DB) (sid lid : Nat) : List Attendance :=
  db.attendances.filter (attKey sid lid)

/-! ### `AttendanceService.create_or_get_attendance_log` -/

def create_or_get_attendance_log (db : DB) (now : Time) (cid session_date : Nat)
    (stype : String) (start_time : Option Time) (recorded_by_id : Option Nat) :
    Except String (DB × AttendanceLog) :=
  if ¬ db.classrooms.contains cid then .error CLASSROOM_NOT_FOUND
  else if ¬ is_valid_session_type stype then .error "Invalid session type"
  else
    match findLog db cid session_date stype with
    | some log => .ok (db, log)
    | none =>
      let log : AttendanceLog :=
        { id := db.next_log_id
          classroom_id := cid
          session_date := session_date
          session_type := stype
          start_time := start_time.getD now
          end_time := none
          total_students := countActiveStudents db cid
          present_count := 0
          absent_count := 0
          late_count := 0
          excused_count := 0
          is_finalized := false
          recorded_by_id := recorded_by_id }
      .ok ({ db with logs := db.logs ++ [log], next_log_id := db.next_log_id + 1 }, log)

/-! ### `AttendanceService.record_attendance` -/

def record_attendance (db : DB) (now : Time) (student_id lid : Nat) (status : String)
    (face_confidence : Rat) (face_recognized : Bool) (check_in_image_url : Option String)
    (recorded_by_id : Option Nat) (notes : Option String) :
    Except String (DB × Attendance) :=
  if db.students.find? (fun s => s.id == student_id) = none then .error STUDENT_NOT_FOUND
  else
    match db.logs.find? (fun l => l.id == lid) with
    | none => .error ATTENDANCE_LOG_NOT_FOUND
    | some log =>
      if ¬ is_valid_attendance_status status then .error INVALID_ATTENDANCE_STATUS
      -- `if face_confidence and not is_valid_confidence_score(...)`: a zero
      -- confidence is falsy in Python and skips the validation.
      else if face_confidence ≠ 0 ∧ ¬ is_valid_confidence_score face_confidence then
        .error "Invalid confidence score"
      else
        match findAttendance db student_id lid with
        | some existing =>
          if existing.face_confidence < face_confidence then
            let updated : Attendance :=
              { existing with face_confidence := face_confidence, status := status,
                              updated_at := now }
            let atts :=
              updateFirst (attKey student_id lid) (fun _ => updated) db.attendances
            .ok ({ db with attendances := atts }, updated)
          else .ok (db, existing)
        | none =>
          let att : Attendance :=
            { student_id := student_id
              classroom_id := some log.classroom_id
              attendance_log_id := lid
              status := status
              check_in_time := some now
              check_in_image_url := check_in_image_url
              face_confidence := face_confidence
              is_face_recognized := face_recognized
              recorded_by_id := recorded_by_id
              notes := notes
              updated_at := now }
          .ok ({ db with attendances := db.attendances ++ [att] }, att)

/-! ### `AttendanceLog.calculate_statistics` / `get_attendance_rate` -/

def calculate_statistics (db : DB) (log : AttendanceLog) : AttendanceLog :=
  let total := countActiveStudents db log.classroom_id
  let log1 := if log.total_students = 0 then { log with total_students := total } else log
  let records := db.attendances.filter fun a => a.attendance_log_id == log.id
  { log1 with
    present_count := (records.filter fun a => a.status == "present").length
    absent_count := (records.filter fun a => a.status == "absent").length
    late_count := (records.filter fun a => a.status == "late").length
    excused_count := (records.filter fun a => a.status == "excused").length }

def get_attendance_rate (log : AttendanceLog) : Rat :=
  if log.total_students = 0 then 0
  else (log.present_count : Rat) / (log.total_students : Rat) * 100

/-! ### `AttendanceService.finalize_attendance_log` -/

def finalize_attendance_log (db : DB) (now : Time) (lid : Nat) :
    Except String (DB × AttendanceLog) :=
  match db.logs.find? (fun l => l.id == lid) with
  | none => .error "Attendance log not found"
  | some log =>
    let log1 := { log with total_students := countActiveStudents db log.classroom_id }
    let log2 := calculate_statistics db log1
    let log3 := { log2 with is_finalized := true, end_time := some now }
    .ok ({ db with logs := updateFirst (fun l => l.id == lid) (fun _ => log3) db.logs },
         log3)

/-! ### `AttendanceService.mark_absent_unrecorded` -/

/-- The `Attendance(...)` constructed inside the absent-marking loop:
only `student_id`, `attendance_log_id`, `status` and `notes` are
passed, so `classroom_id` stays `None` although its column is
`nullable=False` — flushing such a row raises `IntegrityError`. -/
def mkAutoAbsent (sid lid : Nat) (now : Time) : Attendance :=
  { student_id := sid
    classroom_id := none
    attendance_log_id := lid
    status := "absent"
    check_in_time := none
    check_in_image_url := none
    face_confidence := 0
    is_face_recognized := false
    recorded_by_id := none
    notes := some autoAbsentNote
    updated_at := now }

/-- One iteration of the loop over the classroom's students: insert an
absent record only when the student has no record for the session yet
(pending inserts are visible to the duplicate check, as under
SQLAlchemy autoflush). -/
def markStep (lid : Nat) (now : Time) (acc : List Attendance × Nat) (s : Student) :
    List Attendance × Nat :=
  match acc.1.find? (attKey s.id lid) with
  | some _ => acc
  | none => (acc.1 ++ [mkAutoAbsent s.id lid now], acc.2 + 1)

def mark_absent_unrecorded (db : DB) (now : Time) (cid session_date : Nat)
    (stype : String) : Except String (DB × Nat) :=
  if ¬ db.classrooms.contains cid then .error CLASSROOM_NOT_FOUND
  else
    match create_or_get_attendance_log db now cid session_date stype none none with
    | .error e => .error e
    | .ok (db1, log) =>
      let res := (activeStudentsOf db1 cid).foldl (markStep log.id now) (db1.attendances, 0)
      -- commit: the store validates every pending insert against the
      -- `NOT NULL` constraint on `attendances.classroom_id`; the loop's
      -- rows never set it, so any insert aborts the commit
      -- (`IntegrityError`, rolled back and re-raised by the `except`)
      if (res.1.drop db1.attendances.length).any (fun a => a.classroom_id == none) then
        .error INTEGRITY_ERROR
      else .ok ({ db1 with attendances := res.1 }, res.2)

/-! ### `AttendanceService.auto_mark_absent_after_deadline` -/

/-- Body of the loop over stale logs: mark absentees, then finalize;
either step raising aborts the whole job (the `try` wraps the loop). -/
def sweepStep (now : Time) (st : DB × Nat) (log : AttendanceLog) : Except String (DB × Nat) :=
  match mark_absent_unrecorded st.1 now log.classroom_id log.session_date log.session_type with
  | .error e => .error e
  | .ok (db1, marked) =>
    match finalize_attendance_log db1 now log.id with
    | .error e => .error e
    | .ok (db2, _) => .ok (db2, st.2 + marked)

def sweepLogs (now : Time) : DB × Nat → List AttendanceLog → Except String (DB × Nat)
  | st, [] => .ok st
  | st, log :: rest =>
    match sweepStep now st log with
    | .error e => .error e
    | .ok st1 => sweepLogs now st1 rest

def staleLogs (db : DB) (now : Time) : List AttendanceLog :=
  db.logs.filter fun l =>
    decide (l.start_time ≤ now - AUTO_MARK_ABSENT_HOURS) && !l.is_finalized

def auto_mark_absent_after_deadline (db : DB) (now : Time) : Except String (DB × Nat) :=
  sweepLogs now (db, 0) (staleLogs db now)

/-! ### Matcher (`ml_models/face_detector.py`) -/

abbrev Encoding := List Rat

abbrev Loc := Nat × Nat × Nat × Nat

/-- In-memory state of `FaceDetector`. -/
structure FaceDetector where
  confidence_threshold : Rat
  known_encodings : List Encoding
  known_names : List String
  model_loaded : Bool
deriving DecidableEq

/-- `np.argmin`: index of the first minimal element. -/
def np_argmin : List Rat → Nat
  | [] => 0
  | [_] => 0
  | a :: b :: t =>
    if a ≤ (b :: t).getD (np_argmin (b :: t)) 0 then 0 else np_argmin (b :: t) + 1

/-- `face_recognition.face_distance(known, q)`: one distance per gallery
entry, in gallery order; the metric itself is the external library's. -/
def face_distances (dist : Encoding → Encoding → Rat) (gallery : List Encoding)
    (q : Encoding) : List Rat :=
  gallery.map fun e => dist e q

/-- `FaceDetector.recognize_face`. -/
def recognize_face (dist : Encoding → Encoding → Rat) (det : FaceDetector)
    (q : Encoding) : Option String × Rat :=
  if !det.model_loaded then (none, 0)
  else if det.known_encodings.isEmpty then (none, 0)
  else
    let dists := face_distances dist det.known_encodings q
    let i := np_argmin dists
    let confidence := 1 - dists.getD i 0
    if det.confidence_threshold ≤ confidence then
      (some (det.known_names.getD i ""), confidence)
    else (none, confidence)

/-- `FaceDetector.detect_faces`; the external detection pipeline's output
on the image is passed in as `extracted`. -/
def detect_faces (det : FaceDetector) (extracted : List (Loc × Encoding)) :
    List Loc × List Encoding :=
  if !det.model_loaded then ([], [])
  else (extracted.map Prod.fst, extracted.map Prod.snd)

structure FaceResult where
  location : Loc
  name : String
  confidence : Rat
deriving DecidableEq

/-- `FaceDetector.recognize_faces_in_image`. -/
def recognize_faces_in_image (dist : Encoding → Encoding → Rat) (det : FaceDetector)
    (extracted : List (Loc × Encoding)) : List FaceResult :=
  let le := detect_faces det extracted
  (le.1.zip le.2).map fun p =>
    let nc := recognize_face dist det p.2
    { location := p.1, name := nc.1.getD "Unknown", confidence := nc.2 }

/-! ### `FaceRecognitionService.recognize_student_face` -/

structure RecognizedFace where
  student : Option Student
  confidence : Rat
  location : Loc
deriving DecidableEq

/-- Python `max(faces, key=lambda f: f['confidence'])`: first maximal
element. -/
def bestFace (f : FaceResult) (fs : List FaceResult) : FaceResult :=
  fs.foldl (fun b g => if b.confidence < g.confidence then g else b) f

def recognize_student_face (dist : Encoding → Encoding → Rat) (det : FaceDetector)
    (students : List Student) (extracted : List (Loc × Encoding))
    (classroom_id : Option Nat) : Except String RecognizedFace :=
  if !det.model_loaded then .error "Model not loaded"
  else
    match recognize_faces_in_image dist det extracted with
    | [] => .error "No face detected"
    | f :: fs =>
      let best := bestFace f fs
      if best.confidence < MIN_FACE_CONFIDENCE then .error "Confidence too low"
      else if best.name == "Unknown" then .error "Face not recognized"
      else
        let student := students.find? fun s => s.full_name == best.name && s.is_active
        -- `if classroom_id and student and student.classroom_id != classroom_id`
        if (match classroom_id, student with
            | some cid, some st => st.classroom_id != some cid
            | _, _ => false) then .error "Student not in this class"
        else .ok { student := student, confidence := best.confidence, location := best.location }

/-! ### Gallery builder (`ml_models/face_trainer.py`) -/

/-- One enrolled identity as `train_person` sees it: the folder name, its
presence on disk, and per loaded image the encodings
`extract_face_encodings` returns for it (`[]` = no face detected). -/
structure PersonData where
  name : String
  folder_ok : Bool
  images : List (List Encoding)
deriving DecidableEq

/-- `FaceTrainer.train_person`: `(success, message, encodings)`. Messages
are kept as fixed markers for each return site. -/
def train_person (p : PersonData) (min_images : Nat) : Bool × String × List Encoding :=
  if !p.folder_ok then (false, "Folder not found", [])
  else if p.images.length < min_images then (false, "Not enough images", [])
  else
    -- one encoding per image: the first face of each image that has one;
    -- images with no face are skipped
    let all_encodings := p.images.filterMap List.head?
    if all_encodings.isEmpty then (false, "No valid face encodings", [])
    else (true, "Successfully trained", all_encodings)

structure TrainAcc where
  encodings : List Encoding
  names : List String
  trained : List (String × Nat)
  failed : List String
deriving DecidableEq

/-- One iteration of `train_all`'s loop over person folders. -/
def trainStep (min_images : Nat) (acc : TrainAcc) (p : PersonData) : TrainAcc :=
  let r := train_person p min_images
  if r.1 then
    { acc with
      encodings := acc.encodings ++ r.2.2
      names := acc.names ++ List.replicate r.2.2.length p.name
      trained := acc.trained ++ [(p.name, r.2.2.length)] }
  else { acc with failed := acc.failed ++ [p.name] }

structure TrainAllResult where
  success : Bool
  total_persons : Nat
  trained_count : Nat
  failed_count : Nat
  total_encodings : Nat
  trained_persons : List (String × Nat)
  failed_persons : List String
  saved_gallery : Option (List Encoding × List String)
deriving DecidableEq

/-- The accumulator state after `train_all`'s loop over all person
folders. -/
def train_all_acc (persons : List PersonData) (min_images : Nat) : TrainAcc :=
  persons.foldl (trainStep min_images) ⟨[], [], [], []⟩

/-- `FaceTrainer.train_all`; `dir_ok` models the existence check on the
student-faces directory, `saved_gallery` the pickle written by
`save_model` (`None` = nothing written, old gallery file untouched). -/
def train_all (dir_ok : Bool) (persons : List PersonData) (min_images : Nat)
    (save_model : Bool) : TrainAllResult :=
  if !dir_ok then
    { success := false, total_persons := 0, trained_count := 0, failed_count := 0,
      total_encodings := 0, trained_persons := [], failed_persons := [],
      saved_gallery := none }
  else if persons.isEmpty then
    { success := false, total_persons := 0, trained_count := 0, failed_count := 0,
      total_encodings := 0, trained_persons := [], failed_persons := [],
      saved_gallery := none }
  else
    { success := !(train_all_acc persons min_images).trained.isEmpty
      total_persons := persons.length
      trained_count := (train_all_acc persons min_images).trained.length
      failed_count := (train_all_acc persons min_images).failed.length
      total_encodings := (train_all_acc persons min_images).encodings.length
      trained_persons := (train_all_acc persons min_images).trained
      failed_persons := (train_all_acc persons min_images).failed
      saved_gallery :=
        if save_model && !(train_all_acc persons min_images).encodings.isEmpty
        then some ((train_all_acc persons min_images).encodings,
                   (train_all_acc persons min_images).names)
        else none }

/-! ### Concrete example states used by witnesses -/

def exLog : AttendanceLog := ⟨5, 1, 40, "morning", 100, none, 1, 0, 0, 0, 0, false, none⟩

def exStudent : Student := ⟨10, "An", some 1, true⟩

def exDB : DB := ⟨[1], [exStudent], [exLog], [], 6⟩

def att70 : Attendance := ⟨10, some 1, 5, "present", some 100, none, mkRat 7 10, true, none, none, 100⟩

def att95 : Attendance := { att70 with face_confidence := mkRat 19 20, updated_at := 101 }

def db70 : DB := { exDB with attendances := [att70] }

def db95 : DB := { exDB with attendances := [att95] }

/-! ### Lemmas about `updateFirst` and `find?` -/

theorem length_updateFirst (p : α → Bool) (f : α → α) (l : List α) :
    (updateFirst p f l).length = l.length := by
  induction l with
  | nil => rfl
  | cons a t ih =>
    simp only [updateFirst]
    split <;> simp [ih]

theorem filter_length_updateFirst (p : α → Bool) (f : α → α) (l : List α)
    (hf : ∀ a, p a = true → p (f a) = true) :
    ((updateFirst p f l).filter p).length = (l.filter p).length := by
  induction l with
  | nil => rfl
  | cons a t ih =>
    simp only [updateFirst]
    by_cases h : p a = true
    · simp [h, hf a h, List.filter_cons]
    · simp only [if_neg h]
      simp only [Bool.not_eq_true] at h
      simp [List.filter_cons, h, ih]

theorem find?_updateFirst (p : α → Bool) (f : α → α) (l : List α) (a : α)
    (hfind : l.find? p = some a) (hfa : p (f a) = true) :
    (updateFirst p f l).find? p = some (f a) := by
  induction l with
  | nil => simp at hfind
  | cons b t ih =>
    cases hpb : p b with
    | true =>
      rw [List.find?_cons_of_pos _ hpb] at hfind
      cases hfind
      rw [updateFirst, if_pos hpb]
      exact List.find?_cons_of_pos _ hfa
    | false =>
      rw [List.find?_cons_of_neg _ (by simp [hpb])] at hfind
      rw [updateFirst, if_neg (by simp [hpb]),
          List.find?_cons_of_neg _ (by simp [hpb])]
      exact ih hfind

theorem mem_updateFirst_of_neg (p : α → Bool) (f : α → α) (l : List α) (a : α)
    (ha : a ∈ l) (hpa : p a = false) : a ∈ updateFirst p f l := by
  induction l with
  | nil => simp at ha
  | cons b t ih =>
    simp only [updateFirst]
    rcases List.mem_cons.mp ha with rfl | hat
    · have : p a ≠ true := by simp [hpa]
      rw [if_neg this]
      exact List.mem_cons_self _ _
    · split
      · exact List.mem_cons_of_mem _ hat
      · exact List.mem_cons_of_mem _ (ih hat)

theorem find?_append_none (l₁ l₂ : List α) (p : α → Bool)
    (h : (l₁ ++ l₂).find? p = none) : l₁.find? p = none := by
  induction l₁ with
  | nil => rfl
  | cons a t ih =>
    simp only [List.cons_append, List.find?] at h ⊢
    cases hpa : p a with
    | true => simp [hpa] at h
    | false => simp only [hpa] at h ⊢; exact ih h

/-! ### `record_attendance` on an existing record -/

/-- The store after `record_attendance` rewrites the stored row for
(student `sid`, session `lid`) in place to `r`. -/
def mergeUpdatedDB (db : DB) (sid lid : Nat) (r : Attendance) : DB :=
  { db with attendances := updateFirst (attKey sid lid) (fun _ => r) db.attendances }

/-- Case analysis of `record_attendance` when a record for the
(student, session) pair already exists: either the confidence is
strictly higher and the stored row is rewritten in place, or nothing
changes. -/
theorem record_attendance_existing_cases
    (db : DB) (now sid lid : Nat) (status : String) (c : Rat) (fr : Bool)
    (url : Option String) (rb : Option Nat) (notes : Option String)
    (ex : Attendance) (db' : DB) (r : Attendance)
    (hex : findAttendance db sid lid = some ex)
    (h : record_attendance db now sid lid status c fr url rb notes = Except.ok (db', r)) :
    (ex.face_confidence < c ∧
       r = { ex with face_confidence := c, status := status, updated_at := now } ∧
       db' = mergeUpdatedDB db sid lid r) ∨
    (¬ ex.face_confidence < c ∧ db' = db ∧ r = ex) := by
  unfold record_attendance at h
  split at h
  · exact absurd h (by simp)
  · split at h
    · exact absurd h (by simp)
    · split at h
      · exact absurd h (by simp)
      · split at h
        · exact absurd h (by simp)
        · rw [hex] at h
          simp only at h
          split at h
          · rename_i hlt
            left
            refine ⟨hlt, ?_, ?_⟩
            · cases h; rfl
            · cases h; rfl
          · rename_i hlt
            right
            cases h
            exact ⟨hlt, rfl, rfl⟩

/-- C1: for every student and session, `record_attendance` on an
existing record for the pair never creates a second record (the record
count for the pair and the table size are unchanged); if the new
confidence strictly exceeds the stored one, the stored record's
confidence and status are overwritten in place, otherwise the stored
record is returned unchanged. The witness instantiates the 0.70 → 0.95
and 0.95 → 0.70 scenarios. -/
theorem record_attendance_merge_no_duplicate
    (db : DB) (now sid lid : Nat) (status : String) (c : Rat) (fr : Bool)
    (url : Option String) (rb : Option Nat) (notes : Option String)
    (ex : Attendance) (db' : DB) (r : Attendance)
    (hex : findAttendance db sid lid = some ex)
    (h : record_attendance db now sid lid status c fr url rb notes = Except.ok (db', r)) :
    db'.attendances.length = db.attendances.length ∧
    (recordsFor db' sid lid).length = (recordsFor db sid lid).length ∧
    (ex.face_confidence < c →
       r = { ex with face_confidence := c, status := status, updated_at := now } ∧
       findAttendance db' sid lid = some r) ∧
    (¬ ex.face_confidence < c → db' = db ∧ r = ex) := by
  have hkey : attKey sid lid ex = true := List.find?_some hex
  rcases record_attendance_existing_cases db now sid lid status c fr url rb notes
      ex db' r hex h with ⟨hlt, hr, hdb⟩ | ⟨hge, hdb, hr⟩
  · have hkeyr : attKey sid lid r = true := by
      subst hr
      simpa [attKey] using hkey
    subst hdb
    refine ⟨length_updateFirst _ _ _, ?_, ?_, ?_⟩
    · exact filter_length_updateFirst _ _ _ (fun _ _ => hkeyr)
    · intro _
      refine ⟨hr, ?_⟩
      show (updateFirst (attKey sid lid) (fun _ => r) db.attendances).find? _ = some r
      exact find?_updateFirst _ _ _ ex hex hkeyr
    · intro hc
      exact absurd hlt hc
  · subst hdb
    exact ⟨rfl, rfl, fun hc => absurd hc hge, fun _ => ⟨rfl, hr⟩⟩

/-- C1 witness: on the concrete one-student store, recording confidence
0.70 then 0.95 leaves exactly one record for the pair, updated in place
to 0.95; recording 0.70 again afterwards changes nothing. -/
theorem record_attendance_merge_no_duplicate_witness :
    record_attendance exDB 100 10 5 "present" (mkRat 7 10) true none none none
      = Except.ok (db70, att70) ∧
    record_attendance db70 101 10 5 "present" (mkRat 19 20) true none none none
      = Except.ok (db95, att95) ∧
    att95 = { att70 with face_confidence := mkRat 19 20, status := "present", updated_at := 101 } ∧
    findAttendance db95 10 5 = some att95 ∧
    (recordsFor db95 10 5).length = 1 ∧
    db95.attendances.length = 1 ∧
    record_attendance db95 102 10 5 "present" (mkRat 7 10) true none none none
      = Except.ok (db95, att95) := by
  have h := record_attendance_merge_no_duplicate db70 101 10 5 "present" (mkRat 19 20) true
    none none none att70 db95 att95 (by decide) (by decide)
  have h2 := record_attendance_merge_no_duplicate db95 102 10 5 "present" (mkRat 7 10) true
    none none none att95 db95 att95 (by decide) (by decide)
  exact ⟨by decide, by decide, by decide, (h.2.2.1 (by decide)).2, by decide, by decide,
    by decide⟩

/-- C10: when `record_attendance` merges into an existing record because
the new confidence strictly exceeds the stored one, only the record's
confidence, status and updated-at change; check-in time, check-in image
URL, recognized-vs-manual flag, notes, recorded-by and the identifying
fields are untouched, as is every other row of every table. -/
theorem record_attendance_merge_frame
    (db : DB) (now sid lid : Nat) (status : String) (c : Rat) (fr : Bool)
    (url : Option String) (rb : Option Nat) (notes : Option String)
    (ex : Attendance) (db' : DB) (r : Attendance)
    (hex : findAttendance db sid lid = some ex)
    (hlt : ex.face_confidence < c)
    (h : record_attendance db now sid lid status c fr url rb notes = Except.ok (db', r)) :
    r.face_confidence = c ∧ r.status = status ∧ r.updated_at = now ∧
    r.check_in_time = ex.check_in_time ∧
    r.check_in_image_url = ex.check_in_image_url ∧
    r.is_face_recognized = ex.is_face_recognized ∧
    r.notes = ex.notes ∧
    r.recorded_by_id = ex.recorded_by_id ∧
    r.student_id = ex.student_id ∧
    r.classroom_id = ex.classroom_id ∧
    r.attendance_log_id = ex.attendance_log_id ∧
    db'.classrooms = db.classrooms ∧ db'.students = db.students ∧
    db'.logs = db.logs ∧ db'.next_log_id = db.next_log_id ∧
    ∀ a ∈ db.attendances, attKey sid lid a = false → a ∈ db'.attendances := by
  rcases record_attendance_existing_cases db now sid lid status c fr url rb notes
      ex db' r hex h with ⟨_, hr, hdb⟩ | ⟨hge, _, _⟩
  · subst hr hdb
    refine ⟨rfl, rfl, rfl, rfl, rfl, rfl, rfl, rfl, rfl, rfl, rfl, rfl, rfl, rfl, rfl, ?_⟩
    intro a ha hka
    exact mem_updateFirst_of_neg _ _ _ a ha hka
  · exact absurd hlt hge

/-- C10 witness: the concrete 0.70 → 0.95 merge keeps check-in time,
image URL, flag, notes and recorded-by of the stored record. -/
theorem record_attendance_merge_frame_witness :
    att95.face_confidence = mkRat 19 20 ∧ att95.status = "present" ∧ att95.updated_at = 101 ∧
    att95.check_in_time = att70.check_in_time ∧
    att95.check_in_image_url = att70.check_in_image_url ∧
    att95.is_face_recognized = att70.is_face_recognized ∧
    att95.notes = att70.notes ∧
    att95.recorded_by_id = att70.recorded_by_id ∧
    db95.logs = db70.logs ∧ db95.students = db70.students := by
  have h := record_attendance_merge_frame db70 101 10 5 "present" (mkRat 19 20) true
    none none none att70 db95 att95 (by decide) (by decide) (by decide)
  exact ⟨h.1, h.2.1, h.2.2.1, h.2.2.2.1, h.2.2.2.2.1, h.2.2.2.2.2.1, h.2.2.2.2.2.2.1,
    h.2.2.2.2.2.2.2.1, by decide, by decide⟩

/-! ### `create_or_get_attendance_log` -/

/-- When a session for the key already exists, `create_or_get_attendance_log`
returns it and leaves the store untouched. -/
theorem create_or_get_found
    (db : DB) (now : Time) (cid d : Nat) (ty : String) (st : Option Time)
    (rb : Option Nat) (lg : AttendanceLog)
    (hc : db.classrooms.contains cid = true)
    (hty : is_valid_session_type ty = true)
    (hf : findLog db cid d ty = some lg) :
    create_or_get_attendance_log db now cid d ty st rb = Except.ok (db, lg) := by
  unfold create_or_get_attendance_log
  rw [if_neg (not_not_intro hc), if_neg (not_not_intro hty), hf]

/-- Full case analysis of a successful `create_or_get_attendance_log`. -/
theorem create_or_get_spec
    (db : DB) (now : Time) (cid d : Nat) (ty : String) (st : Option Time)
    (rb : Option Nat) (db1 : DB) (lg : AttendanceLog)
    (h : create_or_get_attendance_log db now cid d ty st rb = Except.ok (db1, lg)) :
    db1.classrooms = db.classrooms ∧ db1.students = db.students ∧
    db1.attendances = db.attendances ∧
    findLog db1 cid d ty = some lg ∧
    is_valid_session_type ty = true ∧
    db.classrooms.contains cid = true ∧
    ((findLog db cid d ty = some lg ∧ db1 = db) ∨
     (findLog db cid d ty = none ∧ db1.logs = db.logs ++ [lg] ∧
      lg.classroom_id = cid ∧ lg.session_date = d ∧ lg.session_type = ty ∧
      lg.total_students = countActiveStudents db cid ∧ lg.is_finalized = false ∧
      lg.end_time = none ∧ lg.id = db.next_log_id)) := by
  unfold create_or_get_attendance_log at h
  split at h
  · exact absurd h (by simp)
  · rename_i hc
    split at h
    · exact absurd h (by simp)
    · rename_i hty
      rw [not_not] at hc
      rw [not_not] at hty
      split at h
      · rename_i l hl
        cases h
        exact ⟨rfl, rfl, rfl, hl, hty, hc, Or.inl ⟨hl, rfl⟩⟩
      · rename_i hl
        cases h
        refine ⟨rfl, rfl, rfl, ?_, hty, hc, Or.inr ⟨hl, rfl, rfl, rfl, rfl, rfl, rfl, rfl, rfl⟩⟩
        unfold findLog at hl ⊢
        rw [List.find?_append, hl, Option.none_or]
        simp

/-- C3: `create_or_get_attendance_log` is idempotent: a second call with
the same (classroom, date, session type) returns the very same session
and leaves the store unchanged; an existing session is returned
unchanged (including its state), and a newly created one snapshots
`total_students` from the current active roster of the classroom. -/
theorem create_or_get_session_idempotent
    (db : DB) (now : Time) (cid d : Nat) (ty : String) (st : Option Time)
    (rb : Option Nat) (db1 : DB) (lg1 : AttendanceLog)
    (now' : Time) (st' : Option Time) (rb' : Option Nat)
    (h : create_or_get_attendance_log db now cid d ty st rb = Except.ok (db1, lg1)) :
    create_or_get_attendance_log db1 now' cid d ty st' rb' = Except.ok (db1, lg1) ∧
    (∀ l, findLog db cid d ty = some l → db1 = db ∧ lg1 = l) ∧
    (findLog db cid d ty = none →
       db1.logs = db.logs ++ [lg1] ∧
       lg1.total_students = countActiveStudents db cid ∧
       lg1.is_finalized = false ∧ lg1.end_time = none) := by
  obtain ⟨hcls, -, -, hf1, hty, hc, hcase⟩ := create_or_get_spec db now cid d ty st rb db1 lg1 h
  refine ⟨create_or_get_found db1 now' cid d ty st' rb' lg1 (by rwa [hcls]) hty hf1, ?_, ?_⟩
  · intro l hl
    rcases hcase with ⟨hf, rfl⟩ | ⟨hnone, -⟩
    · refine ⟨rfl, ?_⟩
      rw [hf] at hl
      exact Option.some_injective _ hl
    · rw [hnone] at hl
      cases hl
  · intro hnone
    rcases hcase with ⟨hf, -⟩ | ⟨-, hlogs, -, -, -, htot, hfin, hend, -⟩
    · rw [hnone] at hf
      cases hf
    · exact ⟨hlogs, htot, hfin, hend⟩

def exDB0 : DB := { exDB with logs := [] }

def exNewLog : AttendanceLog := ⟨6, 1, 40, "morning", 200, none, 1, 0, 0, 0, 0, false, none⟩

def dbC3 : DB := { exDB0 with logs := [exNewLog], next_log_id := 7 }

/-- C3 witness: on the concrete store with no session for the key, the
first call creates session 6 with `total_students = 1` and the second
call returns the same session id with no duplicate created. -/
theorem create_or_get_session_idempotent_witness :
    create_or_get_attendance_log exDB0 200 1 40 "morning" none none
      = Except.ok (dbC3, exNewLog) ∧
    create_or_get_attendance_log dbC3 201 1 40 "morning" none none
      = Except.ok (dbC3, exNewLog) ∧
    exNewLog.id = 6 ∧ dbC3.logs.length = 1 ∧
    exNewLog.total_students = countActiveStudents exDB0 1 := by
  have h := create_or_get_session_idempotent exDB0 200 1 40 "morning" none none
    dbC3 exNewLog 201 none none (by decide)
  exact ⟨by decide, h.1, by decide, by decide, by decide⟩

/-! ### `finalize_attendance_log` -/

/-- C4: `finalize_attendance_log` recomputes `total_students` from the
current active roster of the session's classroom, recomputes the
present/absent/late/excused counts from the actual record set, marks
the session finalized and stamps the end time; the attendance rate of
the finalized session is `present / totalStudents * 100`, and `0` when
`totalStudents = 0`. -/
theorem finalize_attendance_log_spec
    (db : DB) (now : Time) (lid : Nat) (lg : AttendanceLog) (db' : DB)
    (log' : AttendanceLog)
    (hfind : db.logs.find? (fun l => l.id == lid) = some lg)
    (h : finalize_attendance_log db now lid = Except.ok (db', log')) :
    log'.total_students = countActiveStudents db lg.classroom_id ∧
    log'.present_count = ((db.attendances.filter fun a => a.attendance_log_id == lg.id).filter
      fun a => a.status == "present").length ∧
    log'.absent_count = ((db.attendances.filter fun a => a.attendance_log_id == lg.id).filter
      fun a => a.status == "absent").length ∧
    log'.late_count = ((db.attendances.filter fun a => a.attendance_log_id == lg.id).filter
      fun a => a.status == "late").length ∧
    log'.excused_count = ((db.attendances.filter fun a => a.attendance_log_id == lg.id).filter
      fun a => a.status == "excused").length ∧
    log'.is_finalized = true ∧ log'.end_time = some now ∧ log'.id = lg.id ∧
    db'.logs = updateFirst (fun l => l.id == lid) (fun _ => log') db.logs ∧
    db'.students = db.students ∧ db'.attendances = db.attendances ∧
    (log'.total_students = 0 → get_attendance_rate log' = 0) ∧
    (log'.total_students ≠ 0 →
       get_attendance_rate log'
         = (log'.present_count : Rat) / (log'.total_students : Rat) * 100) := by
  unfold finalize_attendance_log at h
  rw [hfind] at h
  simp only at h
  cases h
  refine ⟨?_, ?_, ?_, ?_, ?_, rfl, rfl, ?_, rfl, rfl, rfl, ?_, ?_⟩
  · by_cases hN : countActiveStudents db lg.classroom_id = 0 <;>
      simp [calculate_statistics, hN]
  · by_cases hN : countActiveStudents db lg.classroom_id = 0 <;>
      simp [calculate_statistics, hN]
  · by_cases hN : countActiveStudents db lg.classroom_id = 0 <;>
      simp [calculate_statistics, hN]
  · by_cases hN : countActiveStudents db lg.classroom_id = 0 <;>
      simp [calculate_statistics, hN]
  · by_cases hN : countActiveStudents db lg.classroom_id = 0 <;>
      simp [calculate_statistics, hN]
  · by_cases hN : countActiveStudents db lg.classroom_id = 0 <;>
      simp [calculate_statistics, hN]
  · intro h0
    unfold get_attendance_rate
    rw [if_pos h0]
  · intro h0
    unfold get_attendance_rate
    rw [if_neg h0]

def exLogFinal : AttendanceLog := ⟨5, 1, 40, "morning", 100, some 300, 1, 1, 0, 0, 0, true, none⟩

def dbC4 : DB := { db70 with logs := [exLogFinal] }

/-- C4 witness: finalizing the concrete session with one active student
and one `present` record yields `total_students = 1`, `present = 1`,
the finalized flag and end time set, and the stated attendance rate. -/
theorem finalize_attendance_log_spec_witness :
    finalize_attendance_log db70 300 5 = Except.ok (dbC4, exLogFinal) ∧
    exLogFinal.total_students = 1 ∧ exLogFinal.present_count = 1 ∧
    exLogFinal.absent_count = 0 ∧ exLogFinal.is_finalized = true ∧
    exLogFinal.end_time = some 300 ∧
    get_attendance_rate exLogFinal
      = (exLogFinal.present_count : Rat) / (exLogFinal.total_students : Rat) * 100 := by
  have h := finalize_attendance_log_spec db70 300 5 exLog dbC4 exLogFinal
    (by decide) (by decide)
  exact ⟨by decide, by decide, by decide, by decide, by decide, by decide,
    h.2.2.2.2.2.2.2.2.2.2.2.2 (by decide)⟩

/-! ### The absent-marking loop of `mark_absent_unrecorded` -/

/-- The loop only appends records, and each appended record is an
absent record with the fixed note for a student of the list who had no
record for the session when the loop reached them (hence none in the
initial store either). -/
theorem markLoop_spec (lid : Nat) (now : Time) (ss : List Student) :
    ∀ (atts : List Attendance) (c : Nat),
    ∃ new, ss.foldl (markStep lid now) (atts, c) = (atts ++ new, c + new.length) ∧
      ∀ a ∈ new, a.status = "absent" ∧ a.notes = some autoAbsentNote ∧
        a.attendance_log_id = lid ∧ (∃ s ∈ ss, a.student_id = s.id) ∧
        atts.find? (attKey a.student_id lid) = none := by
  induction ss with
  | nil => exact fun atts c => ⟨[], by simp, by simp⟩
  | cons s t ih =>
    intro atts c
    rw [List.foldl_cons]
    cases hfind : atts.find? (attKey s.id lid) with
    | some a0 =>
      obtain ⟨new, heq, hprops⟩ := ih atts c
      refine ⟨new, ?_, ?_⟩
      · rw [show markStep lid now (atts, c) s = (atts, c) by simp [markStep, hfind]]
        exact heq
      · intro a ha
        obtain ⟨h1, h2, h3, ⟨s', hs', he⟩, hf⟩ := hprops a ha
        exact ⟨h1, h2, h3, ⟨s', List.mem_cons_of_mem _ hs', he⟩, hf⟩
    | none =>
      obtain ⟨new, heq, hprops⟩ := ih (atts ++ [mkAutoAbsent s.id lid now]) (c + 1)
      refine ⟨mkAutoAbsent s.id lid now :: new, ?_, ?_⟩
      · rw [show markStep lid now (atts, c) s
              = (atts ++ [mkAutoAbsent s.id lid now], c + 1) by simp [markStep, hfind]]
        rw [heq, List.append_assoc]
        refine Prod.ext ?_ ?_
        · rfl
        · show c + 1 + new.length = c + (new.length + 1)
          omega
      · intro a ha
        rcases List.mem_cons.mp ha with rfl | ha'
        · exact ⟨rfl, rfl, rfl, ⟨s, List.mem_cons_self _ _, rfl⟩, hfind⟩
        · obtain ⟨h1, h2, h3, ⟨s', hs', he⟩, hf⟩ := hprops a ha'
          exact ⟨h1, h2, h3, ⟨s', List.mem_cons_of_mem _ hs', he⟩,
            find?_append_none _ _ _ hf⟩

/-- Records present before the loop are still present after it. -/
theorem markLoop_mem_mono (lid : Nat) (now : Time) (ss : List Student) :
    ∀ (acc : List Attendance × Nat) (a : Attendance), a ∈ acc.1 →
      a ∈ (ss.foldl (markStep lid now) acc).1 := by
  induction ss with
  | nil => exact fun acc a ha => ha
  | cons s t ih =>
    intro acc a ha
    rw [List.foldl_cons]
    refine ih _ a ?_
    unfold markStep
    cases acc.1.find? (attKey s.id lid) with
    | some _ => exact ha
    | none => exact List.mem_append_left _ ha

/-- After the loop, every student in the list has a record for the
session. -/
theorem markLoop_covers (lid : Nat) (now : Time) (ss : List Student) :
    ∀ (acc : List Attendance × Nat) (s : Student), s ∈ ss →
      ∃ a ∈ (ss.foldl (markStep lid now) acc).1, attKey s.id lid a = true := by
  induction ss with
  | nil => intro _ _ h; cases h
  | cons s t ih =>
    intro acc s0 hs0
    rw [List.foldl_cons]
    rcases List.mem_cons.mp hs0 with rfl | hs0'
    · cases hfind : acc.1.find? (attKey s0.id lid) with
      | some a0 =>
        refine ⟨a0, ?_, List.find?_some hfind⟩
        refine markLoop_mem_mono lid now t _ a0 ?_
        rw [show markStep lid now acc s0 = acc by simp [markStep, hfind]]
        exact List.mem_of_find?_eq_some hfind
      | none =>
        refine ⟨mkAutoAbsent s0.id lid now, ?_, by simp [attKey, mkAutoAbsent]⟩
        refine markLoop_mem_mono lid now t _ _ ?_
        rw [show markStep lid now acc s0
              = (acc.1 ++ [mkAutoAbsent s0.id lid now], acc.2 + 1) by
            simp [markStep, hfind]]
        exact List.mem_append_right _ (List.mem_singleton_self _)
    · exact ih _ s0 hs0'

/-- If every listed student already has a record, the loop is a no-op. -/
theorem markLoop_noop (lid : Nat) (now : Time) (ss : List Student) :
    ∀ (acc : List Attendance × Nat),
      (∀ s ∈ ss, ∃ a ∈ acc.1, attKey s.id lid a = true) →
      ss.foldl (markStep lid now) acc = acc := by
  induction ss with
  | nil => exact fun acc _ => rfl
  | cons s t ih =>
    intro acc hcov
    rw [List.foldl_cons]
    obtain ⟨a, ha, hk⟩ := hcov s (List.mem_cons_self _ _)
    cases hfind : acc.1.find? (attKey s.id lid) with
    | none => exact absurd hk (List.find?_eq_none.mp hfind a ha)
    | some a0 =>
      rw [show markStep lid now acc s = acc by simp [markStep, hfind]]
      exact ih acc fun s' hs' => hcov s' (List.mem_cons_of_mem _ hs')

/-- C7: `mark_absent_unrecorded` evaluated at the input it exists for
(one active student without a record): the loop's `Attendance(...)` row
leaves `classroom_id` as `None` although the column is `nullable=False`,
so the commit raises `IntegrityError` and no absent record is ever
inserted; the only run that ever succeeds is the no-op on a session
where every active student is already recorded. -/
theorem mark_absent_not_null_violation :
    mark_absent_unrecorded exDB 100 1 40 "morning" = Except.error INTEGRITY_ERROR ∧
    (mkAutoAbsent 10 5 100).classroom_id = none ∧
    countActiveStudents exDB 1 = 1 ∧ findAttendance exDB 10 5 = none ∧
    mark_absent_unrecorded db70 101 1 40 "morning" = Except.ok (db70, 0) := by
  exact ⟨by decide, by decide, by decide, by decide, by decide⟩

/-! ### The deadline sweep over all stale sessions -/

/-- C9 (amended): an error raised while processing the first stale
session of the batch is re-raised by `auto_mark_absent_after_deadline`,
so the remaining sessions of the batch are not processed. -/
theorem sweep_error_aborts_batch
    (db : DB) (now : Time) (lg : AttendanceLog) (rest : List AttendanceLog) (e : String)
    (hstale : staleLogs db now = lg :: rest)
    (herr : sweepStep now (db, 0) lg = Except.error e) :
    auto_mark_absent_after_deadline db now = Except.error e := by
  unfold auto_mark_absent_after_deadline
  rw [hstale]
  unfold sweepLogs
  rw [herr]

def logBad : AttendanceLog := ⟨7, 99, 41, "morning", 0, none, 0, 0, 0, 0, 0, false, none⟩

def logGood : AttendanceLog := ⟨8, 1, 41, "morning", 0, none, 1, 0, 0, 0, 0, false, none⟩

/-- A committed record for student 20 in session 8, so the second
stale session needs no inserts and is processable on its own. -/
def recG : Attendance := ⟨20, some 1, 8, "present", some 5, none, 0, false, none, none, 5⟩

def dbW9 : DB := ⟨[1], [⟨20, "Binh", some 1, true⟩], [logBad, logGood], [recG], 9⟩

/-- C9 counterexample: with two stale unfinalized sessions, the first
referencing a missing classroom, the whole sweep raises and returns no
state at all, even though the second session on its own would have been
processed successfully — one bad session does block the batch. -/
theorem sweep_counterexample :
    auto_mark_absent_after_deadline dbW9 10 = Except.error CLASSROOM_NOT_FOUND ∧
    staleLogs dbW9 10 = [logBad, logGood] ∧
    exceptIsOk (sweepStep 10 (dbW9, 0) logGood) = true := by
  exact ⟨by decide, by decide, by decide⟩

/-- C9 witness (for the amended claim): the concrete two-session batch
aborts with the first session's error. -/
theorem sweep_error_aborts_batch_witness :
    auto_mark_absent_after_deadline dbW9 10 = Except.error CLASSROOM_NOT_FOUND ∧
    exceptIsOk (sweepStep 10 (dbW9, 0) logGood) = true ∧
    logGood.is_finalized = false := by
  refine ⟨sweep_error_aborts_batch dbW9 10 logBad [logGood] CLASSROOM_NOT_FOUND
    (by decide) (by decide), by decide, by decide⟩

/-! ### `np.argmin` lemmas -/

theorem np_argmin_lt (l : List Rat) (h : l ≠ []) : np_argmin l < l.length := by
  induction l with
  | nil => exact absurd rfl h
  | cons a t ih =>
    cases t with
    | nil => simp [np_argmin]
    | cons b t' =>
      simp only [np_argmin]
      split
      · simp
      · exact Nat.succ_lt_succ (ih (by simp))

theorem np_argmin_le (l : List Rat) :
    ∀ j, j < l.length → l.getD (np_argmin l) 0 ≤ l.getD j 0 := by
  induction l with
  | nil => intro j hj; simp at hj
  | cons a t ih =>
    cases t with
    | nil =>
      intro j hj
      have : j = 0 := by simpa using Nat.lt_one_iff.mp (by simpa using hj)
      subst this
      simp [np_argmin]
    | cons b t' =>
      intro j hj
      simp only [np_argmin]
      split
      · rename_i hle
        cases j with
        | zero => simp
        | succ k =>
          rw [List.getD_cons_zero, List.getD_cons_succ]
          exact le_trans hle (ih k (by simpa using hj))
      · rename_i hle
        cases j with
        | zero =>
          rw [List.getD_cons_succ, List.getD_cons_zero]
          exact le_of_lt (lt_of_not_le hle)
        | succ k =>
          rw [List.getD_cons_succ, List.getD_cons_succ]
          exact ih k (by simpa using hj)

theorem np_argmin_first (l : List Rat) :
    ∀ j, j < np_argmin l → l.getD (np_argmin l) 0 < l.getD j 0 := by
  induction l with
  | nil => intro j hj; simp [np_argmin] at hj
  | cons a t ih =>
    cases t with
    | nil => intro j hj; simp [np_argmin] at hj
    | cons b t' =>
      intro j hj
      simp only [np_argmin] at hj ⊢
      split
      · rename_i hle
        rw [if_pos hle] at hj
        cases hj
      · rename_i hle
        rw [if_neg hle] at hj
        cases j with
        | zero =>
          rw [List.getD_cons_succ, List.getD_cons_zero]
          exact lt_of_not_le hle
        | succ k =>
          rw [List.getD_cons_succ, List.getD_cons_succ]
          exact ih k (Nat.lt_of_succ_lt_succ hj)

/-! ### Matcher theorems -/

/-- C2 (amended): on a loaded, non-empty, positionally aligned gallery
the matcher picks the entry at minimum distance with ties resolved to
the first entry in gallery order, returns `confidence = 1 - distance`
WITHOUT clamping, labels the face with that entry's name exactly when
the confidence reaches the acceptance threshold and with `none`
(rendered `"Unknown"` by `recognize_faces_in_image`) otherwise; when the
query itself is in the gallery, distances are nonnegative and
`dist q q = 0`, the returned confidence is exactly 1. -/
theorem recognize_face_spec
    (dist : Encoding → Encoding → Rat) (det : FaceDetector) (q e : Encoding)
    (es : List Encoding) (dists : List Rat) (i : Nat)
    (hload : det.model_loaded = true)
    (hgal : det.known_encodings = e :: es)
    (hd : dists = face_distances dist det.known_encodings q)
    (hi : i = np_argmin dists) :
    i < dists.length ∧
    (∀ j, j < dists.length → dists.getD i 0 ≤ dists.getD j 0) ∧
    (∀ j, j < i → dists.getD i 0 < dists.getD j 0) ∧
    recognize_face dist det q
      = (if det.confidence_threshold ≤ 1 - dists.getD i 0
         then (some (det.known_names.getD i ""), 1 - dists.getD i 0)
         else (none, 1 - dists.getD i 0)) ∧
    ((∀ a b, 0 ≤ dist a b) → dist q q = 0 → q ∈ det.known_encodings →
       (recognize_face dist det q).2 = 1) ∧
    (∀ loc : Loc, recognize_faces_in_image dist det [(loc, q)]
       = [{ location := loc, name := ((recognize_face dist det q).1).getD "Unknown",
            confidence := (recognize_face dist det q).2 }]) := by
  have hne : dists ≠ [] := by rw [hd, hgal]; simp [face_distances]
  have heq : recognize_face dist det q
      = (if det.confidence_threshold ≤ 1 - dists.getD i 0
         then (some (det.known_names.getD i ""), 1 - dists.getD i 0)
         else (none, 1 - dists.getD i 0)) := by
    subst hi
    subst hd
    simp only [recognize_face, hload, hgal, Bool.not_true, List.isEmpty_cons,
      Bool.false_eq_true, if_false]
  refine ⟨hi ▸ np_argmin_lt dists hne, hi ▸ np_argmin_le dists, hi ▸ np_argmin_first dists,
    heq, ?_, ?_⟩
  · intro hnn hqq hmem
    have hlt' : i < dists.length := hi ▸ np_argmin_lt dists hne
    have h0mem : (0 : Rat) ∈ dists := by
      rw [hd]
      have := List.mem_map_of_mem (fun e' => dist e' q) hmem
      simpa [face_distances, hqq] using this
    obtain ⟨⟨j, hj⟩, hget⟩ := List.mem_iff_get.mp h0mem
    have hj0 : dists.getD j 0 = 0 := by
      rw [List.getD_eq_getElem dists 0 hj]
      simpa [List.get_eq_getElem] using hget
    have hile : dists.getD i 0 ≤ 0 := by
      have h1 := np_argmin_le dists j hj
      rw [hj0] at h1
      rw [hi]
      exact h1
    have hx : dists.getD i 0 ∈ dists := by
      rw [List.getD_eq_getElem dists 0 hlt']
      exact List.getElem_mem hlt'
    have h0le : (0 : Rat) ≤ dists.getD i 0 := by
      rw [hd] at hx ⊢
      rcases List.mem_map.mp hx with ⟨e', -, he'⟩
      rw [← he']
      exact hnn e' q
    have hz : dists.getD i 0 = 0 := le_antisymm hile h0le
    rw [heq]
    split
    · show (1 : Rat) - dists.getD i 0 = 1
      rw [hz, sub_zero]
    · show (1 : Rat) - dists.getD i 0 = 1
      rw [hz, sub_zero]
  · intro loc
    unfold recognize_faces_in_image detect_faces
    rw [hload]
    simp

/-- A concrete distance for witnesses: one-dimensional Euclidean
distance on the first coordinate (nonnegative, zero on the diagonal),
standing in for the external `face_recognition.face_distance`. -/
def dist1 (a b : Encoding) : Rat := |a.headD 0 - b.headD 0|

def detW : FaceDetector := ⟨mkRat 3 5, [[0], [5]], ["A", "B"], true⟩

/-- C2 witness: on a loaded two-entry gallery with the query equal to
the first entry, the matcher's confidence is exactly 1. -/
theorem recognize_face_spec_witness :
    (recognize_face dist1 detW [0]).2 = 1 ∧ detW.model_loaded = true := by
  have h := recognize_face_spec dist1 detW [0] [0] [[5]]
    (face_distances dist1 detW.known_encodings [0])
    (np_argmin (face_distances dist1 detW.known_encodings [0])) rfl rfl rfl rfl
  refine ⟨h.2.2.2.2.1 (fun a b => abs_nonneg _) (by simp [dist1]) (by simp [detW]), rfl⟩

def detC2 : FaceDetector := ⟨mkRat 3 5, [[0]], ["A"], true⟩

/-- C2 counterexample: on a loaded gallery whose single entry is at
distance 2 from the query, the returned confidence is `1 - 2 = -1`,
outside `[0, 1]` — the code does not clamp the confidence. -/
theorem recognize_confidence_not_clamped :
    recognize_face dist1 detC2 [2] = (none, -1) ∧
    (recognize_face dist1 detC2 [2]).2 < 0 := by
  have hd : face_distances dist1 detC2.known_encodings [2] = [2] := by
    simp [face_distances, dist1, detC2]
  have h : recognize_face dist1 detC2 [2] = (none, -1) := by
    unfold recognize_face
    rw [if_neg (by simp [detC2]), if_neg (by simp [detC2]), hd]
    rw [if_neg (by norm_num [np_argmin, Rat.mkRat_eq_div, detC2])]
    norm_num [np_argmin]
  exact ⟨h, by rw [h]; norm_num⟩

/-- C8 (amended): with no gallery loaded, the service-level
`recognize_student_face` fails fast with the error value
`"Model not loaded"` before any matching (and never trains), while the
detector-level `detect_faces` / `recognize_faces_in_image` return empty
results indistinguishable from an image with zero faces. -/
theorem recognize_not_loaded_fails_fast
    (dist : Encoding → Encoding → Rat) (det : FaceDetector) (students : List Student)
    (extracted : List (Loc × Encoding)) (cid : Option Nat)
    (h : det.model_loaded = false) :
    recognize_student_face dist det students extracted cid
      = Except.error "Model not loaded" ∧
    detect_faces det extracted = ([], []) ∧
    recognize_faces_in_image dist det extracted = [] := by
  have hd : detect_faces det extracted = ([], []) := by
    unfold detect_faces
    rw [h]
    simp
  refine ⟨?_, hd, ?_⟩
  · unfold recognize_student_face
    rw [h]
    simp
  · unfold recognize_faces_in_image
    rw [hd]
    simp

def detOff : FaceDetector := ⟨mkRat 3 5, [[0]], ["A"], false⟩

def extOne : List (Loc × Encoding) := [((0, 0, 0, 0), [0])]

/-- C8 counterexample: the matcher-level `recognize_faces_in_image`
with no gallery loaded returns the plain empty list on an image that
does contain a face — the same normal result a loaded detector returns
for an image with zero faces, with no error raised. -/
theorem recognize_unloaded_silent_empty :
    recognize_faces_in_image dist1 detOff extOne = [] ∧
    recognize_faces_in_image dist1 detW [] = [] ∧
    detOff.model_loaded = false ∧ extOne ≠ [] := by
  exact ⟨by decide, by decide, by decide, by decide⟩

/-- C8 witness: the concrete unloaded detector yields the fail-fast
service error and the silent empty detector result. -/
theorem recognize_not_loaded_fails_fast_witness :
    recognize_student_face dist1 detOff [exStudent] extOne none
      = Except.error "Model not loaded" ∧
    recognize_faces_in_image dist1 detOff extOne = [] := by
  have h := recognize_not_loaded_fails_fast dist1 detOff [exStudent] extOne none rfl
  exact ⟨h.1, h.2.2⟩

/-! ### Gallery-builder loop characterization -/

theorem trainFold_trained (mi : Nat) (ps : List PersonData) :
    ∀ acc : TrainAcc,
      (ps.foldl (trainStep mi) acc).trained
        = acc.trained ++ (ps.filter fun p => (train_person p mi).1).map
            (fun p => (p.name, (train_person p mi).2.2.length)) := by
  induction ps with
  | nil => intro acc; simp
  | cons p t ih =>
    intro acc
    rw [List.foldl_cons, List.filter_cons]
    cases hsp : (train_person p mi).1 with
    | true =>
      rw [if_pos (by simp [hsp]), List.map_cons,
        show trainStep mi acc p = { acc with
          encodings := acc.encodings ++ (train_person p mi).2.2,
          names := acc.names ++ List.replicate (train_person p mi).2.2.length p.name,
          trained := acc.trained ++ [(p.name, (train_person p mi).2.2.length)] } by
            simp [trainStep, hsp]]
      rw [ih]
      simp
    | false =>
      rw [if_neg (by simp [hsp]),
        show trainStep mi acc p = { acc with failed := acc.failed ++ [p.name] } by
          simp [trainStep, hsp]]
      rw [ih]

theorem trainFold_failed (mi : Nat) (ps : List PersonData) :
    ∀ acc : TrainAcc,
      (ps.foldl (trainStep mi) acc).failed
        = acc.failed ++ (ps.filter fun p => !(train_person p mi).1).map
            (fun p => p.name) := by
  induction ps with
  | nil => intro acc; simp
  | cons p t ih =>
    intro acc
    rw [List.foldl_cons, List.filter_cons]
    cases hsp : (train_person p mi).1 with
    | true =>
      rw [if_neg (by simp [hsp]),
        show trainStep mi acc p = { acc with
          encodings := acc.encodings ++ (train_person p mi).2.2,
          names := acc.names ++ List.replicate (train_person p mi).2.2.length p.name,
          trained := acc.trained ++ [(p.name, (train_person p mi).2.2.length)] } by
            simp [trainStep, hsp]]
      rw [ih]
    | false =>
      rw [if_pos (by simp [hsp]), List.map_cons,
        show trainStep mi acc p = { acc with failed := acc.failed ++ [p.name] } by
          simp [trainStep, hsp]]
      rw [ih]
      simp

theorem trainFold_encodings (mi : Nat) (ps : List PersonData) :
    ∀ acc : TrainAcc,
      (ps.foldl (trainStep mi) acc).encodings
        = acc.encodings ++ (ps.filter fun p => (train_person p mi).1).flatMap
            (fun p => (train_person p mi).2.2) := by
  induction ps with
  | nil => intro acc; simp
  | cons p t ih =>
    intro acc
    rw [List.foldl_cons, List.filter_cons]
    cases hsp : (train_person p mi).1 with
    | true =>
      rw [if_pos (by simp [hsp]), List.flatMap_cons,
        show trainStep mi acc p = { acc with
          encodings := acc.encodings ++ (train_person p mi).2.2,
          names := acc.names ++ List.replicate (train_person p mi).2.2.length p.name,
          trained := acc.trained ++ [(p.name, (train_person p mi).2.2.length)] } by
            simp [trainStep, hsp]]
      rw [ih]
      simp
    | false =>
      rw [if_neg (by simp [hsp]),
        show trainStep mi acc p = { acc with failed := acc.failed ++ [p.name] } by
          simp [trainStep, hsp]]
      rw [ih]

theorem trainFold_names_length (mi : Nat) (ps : List PersonData) :
    ∀ acc : TrainAcc, acc.names.length = acc.encodings.length →
      (ps.foldl (trainStep mi) acc).names.length
        = (ps.foldl (trainStep mi) acc).encodings.length := by
  induction ps with
  | nil => exact fun acc h => h
  | cons p t ih =>
    intro acc hacc
    rw [List.foldl_cons]
    refine ih _ ?_
    simp only [trainStep]
    split <;> simp [hacc]

/-- Exact success condition of `train_person` and the encodings it
returns on success: one per image that yielded a face. -/
theorem train_person_cases (p : PersonData) (mi : Nat) :
    ((train_person p mi).1 = true ↔
       (p.folder_ok = true ∧ mi ≤ p.images.length ∧
        p.images.filterMap List.head? ≠ [])) ∧
    ((train_person p mi).1 = true →
       (train_person p mi).2.2 = p.images.filterMap List.head?) := by
  unfold train_person
  cases hf : p.folder_ok with
  | false => simp
  | true =>
    simp only [Bool.not_true, Bool.false_eq_true, if_false]
    by_cases hlen : p.images.length < mi
    · rw [if_pos hlen]
      simp [Nat.not_le.mpr hlen]
    · rw [if_neg hlen]
      by_cases hemp : (p.images.filterMap List.head?).isEmpty = true
      · rw [if_pos hemp]
        simp [List.isEmpty_iff.mp hemp]
      · rw [if_neg hemp]
        have hemp2 : p.images.filterMap List.head? ≠ [] :=
          fun hnil => hemp (by simp [hnil])
        simp [hemp2, Nat.not_lt.mp hlen]

/-- A successful `train_person` always returns at least one encoding. -/
theorem train_person_success_nonempty (p : PersonData) (mi : Nat)
    (h : (train_person p mi).1 = true) : (train_person p mi).2.2 ≠ [] := by
  rw [(train_person_cases p mi).2 h]
  exact ((train_person_cases p mi).1.mp h).2.2

theorem flatMap_ne_nil {α β : Type} (l : List α) (q : α → List β)
    (hl : l ≠ []) (hq : ∀ x ∈ l, q x ≠ []) : l.flatMap q ≠ [] := by
  cases l with
  | nil => exact absurd rfl hl
  | cons a t =>
    rw [List.flatMap_cons]
    intro hcontra
    exact hq a (List.mem_cons_self _ _) (List.append_eq_nil.mp hcontra).1

/-- C5: `train_all` collects per-identity failures in `failed_persons`
and successes in `trained_persons` (in input order, never aborting on a
failure), reports the run unsuccessful exactly when zero identities
trained, and writes the new gallery blob only when at least one
identity trained — equivalently, when the aggregate embedding count
reaches the code's overall minimum of one — with the saved embedding
and label sequences positionally aligned. -/
theorem train_all_failure_policy
    (ps : List PersonData) (mi : Nat) (sm : Bool) (r : TrainAllResult)
    (hps : ps ≠ [])
    (hr : r = train_all true ps mi sm) :
    r.trained_persons = (ps.filter fun p => (train_person p mi).1).map
        (fun p => (p.name, (train_person p mi).2.2.length)) ∧
    r.failed_persons = (ps.filter fun p => !(train_person p mi).1).map (fun p => p.name) ∧
    r.total_persons = ps.length ∧
    r.trained_count = r.trained_persons.length ∧
    r.failed_count = r.failed_persons.length ∧
    (r.success = false ↔ r.trained_count = 0) ∧
    (r.saved_gallery = none ↔ (sm = false ∨ r.trained_count = 0)) ∧
    (∀ g, r.saved_gallery = some g →
       1 ≤ r.trained_count ∧ 1 ≤ r.total_encodings ∧
       g.1.length = r.total_encodings ∧ g.2.length = g.1.length) := by
  subst hr
  unfold train_all
  rw [if_neg (by simp)]
  rw [if_neg (by simp [hps])]
  have htr : (train_all_acc ps mi).trained
      = (ps.filter fun p => (train_person p mi).1).map
          (fun p => (p.name, (train_person p mi).2.2.length)) := by
    unfold train_all_acc
    rw [trainFold_trained mi ps ⟨[], [], [], []⟩]
    rfl
  have hfl : (train_all_acc ps mi).failed
      = (ps.filter fun p => !(train_person p mi).1).map (fun p => p.name) := by
    unfold train_all_acc
    rw [trainFold_failed mi ps ⟨[], [], [], []⟩]
    rfl
  have hen : (train_all_acc ps mi).encodings
      = (ps.filter fun p => (train_person p mi).1).flatMap
          (fun p => (train_person p mi).2.2) := by
    unfold train_all_acc
    rw [trainFold_encodings mi ps ⟨[], [], [], []⟩]
    rfl
  have hnl : (train_all_acc ps mi).names.length
      = (train_all_acc ps mi).encodings.length :=
    trainFold_names_length mi ps ⟨[], [], [], []⟩ rfl
  have hiff : (train_all_acc ps mi).encodings = [] ↔ (train_all_acc ps mi).trained = [] := by
    rw [htr, hen]
    constructor
    · intro he
      by_contra htne
      have hfilter : ps.filter (fun p => (train_person p mi).1) ≠ [] := by
        intro hf
        rw [hf] at htne
        exact htne rfl
      exact flatMap_ne_nil _ _ hfilter
        (fun x hx => train_person_success_nonempty x mi
          (by simpa using (List.mem_filter.mp hx).2)) he
    · intro ht
      have hfilter : ps.filter (fun p => (train_person p mi).1) = [] := by
        by_contra hf
        rcases List.exists_mem_of_ne_nil _ hf with ⟨x, hx⟩
        rw [List.map_eq_nil_iff] at ht
        rw [ht] at hx
        cases hx
      rw [hfilter]
      rfl
  refine ⟨htr, hfl, rfl, rfl, rfl, ?_, ?_, ?_⟩
  · show (!(train_all_acc ps mi).trained.isEmpty) = false
      ↔ (train_all_acc ps mi).trained.length = 0
    simp [List.isEmpty_iff, List.length_eq_zero]
  · show (if sm && !(train_all_acc ps mi).encodings.isEmpty
          then some ((train_all_acc ps mi).encodings, (train_all_acc ps mi).names)
          else none) = none
      ↔ (sm = false ∨ (train_all_acc ps mi).trained.length = 0)
    constructor
    · intro hnone
      by_cases hsm : sm = true
      · right
        rw [List.length_eq_zero]
        apply hiff.mp
        by_contra henc
        rw [if_pos (by simp [hsm, henc])] at hnone
        cases hnone
      · left
        simpa using hsm
    · rintro (hsm | h0)
      · rw [if_neg (by simp [hsm])]
      · have henc : (train_all_acc ps mi).encodings = [] :=
          hiff.mpr (List.length_eq_zero.mp h0)
        rw [if_neg (by simp [henc])]
  · intro g hg
    by_cases hcond : (sm && !(train_all_acc ps mi).encodings.isEmpty) = true
    · rw [show ((if sm && !(train_all_acc ps mi).encodings.isEmpty
            then some ((train_all_acc ps mi).encodings, (train_all_acc ps mi).names)
            else none)) = some ((train_all_acc ps mi).encodings, (train_all_acc ps mi).names)
          from if_pos hcond] at hg
      cases hg
      simp only [Bool.and_eq_true, Bool.not_eq_true', List.isEmpty_eq_false] at hcond
      refine ⟨?_, ?_, rfl, hnl⟩
      · show 1 ≤ (train_all_acc ps mi).trained.length
        have hne : (train_all_acc ps mi).trained ≠ [] :=
          fun ht => hcond.2 (hiff.mpr ht)
        exact Nat.one_le_iff_ne_zero.mpr (by simpa [List.length_eq_zero] using hne)
      · show 1 ≤ (train_all_acc ps mi).encodings.length
        exact Nat.one_le_iff_ne_zero.mpr (by simpa [List.length_eq_zero] using hcond.2)
    · rw [show ((if sm && !(train_all_acc ps mi).encodings.isEmpty
            then some ((train_all_acc ps mi).encodings, (train_all_acc ps mi).names)
            else none)) = none from if_neg hcond] at hg
      cases hg

def encX : Encoding := [1]

def pA : PersonData := ⟨"A", true, [[encX], [encX], [encX]]⟩

def pB : PersonData := ⟨"B", true, [[encX]]⟩

/-- C5 witness: with identity A (3 usable images) and identity B (1
image), the batch reports A trained and B failed, succeeds overall, and
writes the gallery. -/
theorem train_all_failure_policy_witness :
    (train_all true [pA, pB] 3 true).trained_persons = [("A", 3)] ∧
    (train_all true [pA, pB] 3 true).failed_persons = ["B"] ∧
    (train_all true [pA, pB] 3 true).success = true ∧
    (train_all true [pA, pB] 3 true).saved_gallery ≠ none ∧
    (train_all true [pA, pB] 3 true).total_encodings = 3 := by
  have h := train_all_failure_policy [pA, pB] 3 true _ (by decide) rfl
  exact ⟨h.1.trans (by decide), h.2.1.trans (by decide), by decide, by decide, by decide⟩

/-- C6 (amended): `train_person` considers an identity only if it has
at least `min_images` raw images; images yielding zero detected faces
are skipped and contribute no embedding; the identity succeeds exactly
when its folder exists, it has at least `min_images` raw images and at
least ONE image yields a valid embedding — the valid-embedding yield
itself is not required to reach `min_images`. -/
theorem train_person_success_condition (p : PersonData) (mi : Nat) :
    ((train_person p mi).1 = true ↔
       (p.folder_ok = true ∧ mi ≤ p.images.length ∧
        p.images.filterMap List.head? ≠ [])) ∧
    ((train_person p mi).1 = true →
       (train_person p mi).2.2 = p.images.filterMap List.head? ∧
       mi ≤ p.images.length) := by
  have h := train_person_cases p mi
  exact ⟨h.1, fun hs => ⟨h.2 hs, (h.1.mp hs).2.1⟩⟩

def pX : PersonData := ⟨"X", true, [[encX], [], []]⟩

/-- C6 counterexample: an identity with 3 raw images of which only one
yields a face trains successfully with a single embedding, although its
valid-embedding yield (1) is below `min_images = 3` — success is not
"at least `minImagesPerIdentity` valid embeddings". -/
theorem train_person_low_yield_success :
    (train_person pX 3).1 = true ∧ (train_person pX 3).2.2.length = 1 ∧
    (pX.images.filterMap List.head?).length < 3 := by
  exact ⟨by decide, by decide, by decide⟩

/-- C6 witness: the amended success condition applied to the low-yield
identity, plus the A-trained / B-failed example. -/
theorem train_person_success_condition_witness :
    (train_person pX 3).1 = true ∧
    (train_person pX 3).2.2 = pX.images.filterMap List.head? ∧
    (train_person pA 3).1 = true ∧ (train_person pB 3).1 = false ∧
    (train_all true [pA, pB] 3 true).trained_persons = [("A", 3)] ∧
    (train_all true [pA, pB] 3 true).failed_persons = ["B"] := by
  have h := train_person_success_condition pX 3
  exact ⟨h.1.mpr ⟨rfl, by decide, by decide⟩, (h.2 (by decide)).1, by decide, by decide,
    by decide, by decide⟩

end DiemDanh
